import Mathlib

/-!
Shallow embedding of `scripts/download_pbmc3k.py`.

The script is a straight-line program:

  output_path = "data/raw"
  os.makedirs(output_path, exist_ok=True)
  print("Downloading PBMC 3k dataset...")
  adata = sc.datasets.pbmc3k()
  save_path = os.path.join(output_path, "pbmc3k.h5ad")
  adata.write(save_path)
  print(f"Dataset saved to {save_path}")

External effects (`os.makedirs` at the OS level, `sc.datasets.pbmc3k`,
`AnnData.write`) are modelled as oracles in an environment `Env`: each call
either succeeds with its documented deterministic effect on the modelled
state, or raises, in which case the exception propagates uncaught and the
process exits with a non-zero code.  Execution is recorded as a trace of
events so that ordering properties can be stated.
-/

deriving instance DecidableEq for Except

namespace PBMC3K

/-- Error raised by an external call (filesystem, network/library, or
serialization); the script catches none of them. -/
inductive Err where
  | fsError : String → Err
  | netError : String → Err
  | serError : String → Err
deriving DecidableEq, Repr

/-- Modelled filesystem: the set of existing directories (as normalized
path strings) and an association list from file paths to file contents
(byte lists). -/
structure FS where
  dirs : List String
  files : List (String × List Nat)
deriving DecidableEq, Repr

/-- Split a character list on a separator character. -/
def splitCharsAux (sep : Char) (acc : List Char) : List Char → List (List Char)
  | [] => [acc.reverse]
  | c :: cs =>
    if c = sep then acc.reverse :: splitCharsAux sep [] cs
    else splitCharsAux sep (c :: acc) cs

/-- Split a path string on `/`, dropping empty components. -/
def splitPath (p : String) : List String :=
  ((splitCharsAux '/' [] p.data).map String.mk).filter (fun s => s ≠ "")

/-- Join path components back with `/`. -/
def joinParts : List String → String
  | [] => ""
  | [p] => p
  | p :: ps => p ++ "/" ++ joinParts ps

/-- The nonempty component-wise prefixes of a component list, shortest
first. -/
def pathPrefixes (parts : List String) : List (List String) :=
  (List.range parts.length).map (fun i => parts.take (i + 1))

/-- All ancestor directories of a path, including the (normalized) path
itself: for `"data/raw"` this is `["data", "data/raw"]`. -/
def ancestors (p : String) : List String :=
  (pathPrefixes (splitPath p)).map joinParts

/-- A directory exists when its normalized path is recorded in `dirs`. -/
def dirExists (fs : FS) (p : String) : Prop :=
  joinParts (splitPath p) ∈ fs.dirs

instance (fs : FS) (p : String) : Decidable (dirExists fs p) := by
  unfold dirExists; infer_instance

/-- Add one directory to the directory list if it is not already there. -/
def addDir (ds : List String) (d : String) : List String :=
  if d ∈ ds then ds else ds ++ [d]

/-- Add a list of directories in order. -/
def addDirs (ds : List String) (new : List String) : List String :=
  new.foldl addDir ds

/-- Modelled from the spec: `os.makedirs(path, exist_ok)` (Python standard
library, not part of this repository).  Per the spec's contract for the
Output-Directory-Preparer, it creates the directory and any missing parent
directories; with `exist_ok = true` it succeeds silently when the directory
already exists, and with `exist_ok = false` pre-existence raises
`FileExistsError`.  OS-level failures (permissions and the like) are
modelled separately by the `Env.mkdirErr` oracle. -/
def makedirs (fs : FS) (p : String) (exist_ok : Bool) : Except Err FS :=
  if joinParts (splitPath p) ∈ fs.dirs ∧ exist_ok = false then
    .error (.fsError "FileExistsError")
  else
    .ok { fs with dirs := addDirs fs.dirs (ancestors p) }

/-- Write a file, unconditionally replacing any existing entry at that
path (the overwrite semantics of `AnnData.write`). -/
def FS.setFile (fs : FS) (p : String) (content : List Nat) : FS :=
  { fs with files := (p, content) :: fs.files.filter (fun pc => pc.1 ≠ p) }

/-- Look up the content of the file at a path, if any. -/
def FS.getFile (fs : FS) (p : String) : Option (List Nat) :=
  (fs.files.find? (fun pc => pc.1 == p)).map Prod.snd

/-- Number of file entries recorded at a path. -/
def FS.countAt (fs : FS) (p : String) : Nat :=
  (fs.files.filter (fun pc => pc.1 == p)).length

/-- Per-run oracles for the three external calls the script makes:
an OS-level error during `os.makedirs` (if any), the result of
`sc.datasets.pbmc3k()` (the fetched Dataset, or the error it raises), and
an error during `adata.write` (if any). -/
structure Env (D : Type) where
  mkdirErr : Option Err
  fetchResult : Except Err D
  writeErr : Option Err

/-- Observable events of one execution, in program order. -/
inductive Ev where
  | mkdirCall : String → Ev
  | printLine : String → Ev
  | fetchCall : Ev
  | writeCall : String → Ev
deriving DecidableEq, Repr

/-- Final state of one execution: the filesystem, the event trace, and the
process exit code (0 on success, 1 when an uncaught exception terminates
the interpreter). -/
structure RunResult where
  fs : FS
  trace : List Ev
  exitCode : Nat
deriving DecidableEq, Repr

/-- `output_path = "data/raw"` (line 5 of the script). -/
def output_path : String := "data/raw"

/-- POSIX `os.path.join` restricted to two arguments, as in CPython's
`posixpath.join`. -/
def posixJoin (a b : String) : String :=
  if b.data.head? = some '/' then b
  else if a = "" ∨ a.data.getLast? = some '/' then a ++ b
  else a ++ "/" ++ b

/-- `save_path = os.path.join(output_path, "pbmc3k.h5ad")` (line 13). -/
def save_path : String := posixJoin output_path "pbmc3k.h5ad"

/-- The fixed starting message printed on line 9. -/
def startingMsg : String := "Downloading PBMC 3k dataset..."

/-- The completion message printed on line 16, with the save path
interpolated. -/
def savedMsg : String := "Dataset saved to " ++ save_path

/-- One execution of the script, line by line.  `serialize` is the fixed
serialization function of the external library (`AnnData.write`'s h5ad
encoding), `env` holds this run's external-call outcomes, and `fs0` is the
initial filesystem.  Any raised error stops execution at that line and the
process exits with code 1. -/
def runScript {D : Type} (serialize : D → List Nat) (env : Env D)
    (fs0 : FS) : RunResult :=
  -- line 6: os.makedirs(output_path, exist_ok=True)
  match env.mkdirErr with
  | some _ => { fs := fs0, trace := [Ev.mkdirCall output_path], exitCode := 1 }
  | none =>
    match makedirs fs0 output_path true with
    | .error _ =>
        { fs := fs0, trace := [Ev.mkdirCall output_path], exitCode := 1 }
    | .ok fs1 =>
      -- line 9: print("Downloading PBMC 3k dataset...")
      -- line 10: adata = sc.datasets.pbmc3k()
      match env.fetchResult with
      | .error _ =>
          { fs := fs1
            trace := [Ev.mkdirCall output_path, Ev.printLine startingMsg,
                      Ev.fetchCall]
            exitCode := 1 }
      | .ok adata =>
        -- line 14: adata.write(save_path)
        match env.writeErr with
        | some _ =>
            { fs := fs1
              trace := [Ev.mkdirCall output_path, Ev.printLine startingMsg,
                        Ev.fetchCall, Ev.writeCall save_path]
              exitCode := 1 }
        | none =>
          -- line 16: print(f"Dataset saved to {save_path}")
          { fs := fs1.setFile save_path (serialize adata)
            trace := [Ev.mkdirCall output_path, Ev.printLine startingMsg,
                      Ev.fetchCall, Ev.writeCall save_path,
                      Ev.printLine savedMsg]
            exitCode := 0 }

/-- The lines the script itself wrote to standard output, in order. -/
def stdoutOf (r : RunResult) : List String :=
  r.trace.filterMap (fun e =>
    match e with
    | Ev.printLine s => some s
    | _ => none)

/-- Index of the first occurrence of an event in a trace (length of the
trace when absent). -/
def idxOf : List Ev → Ev → Nat
  | [], _ => 0
  | e :: es, a => if e = a then 0 else idxOf es a + 1

/-- Event `a` occurs in the trace strictly before event `b`. -/
def precedes (tr : List Ev) (a b : Ev) : Prop :=
  a ∈ tr ∧ b ∈ tr ∧ idxOf tr a < idxOf tr b

instance (tr : List Ev) (a b : Ev) : Decidable (precedes tr a b) := by
  unfold precedes; infer_instance

/-! ### Helper lemmas about directory bookkeeping -/

theorem mem_addDir_self (ds : List String) (d : String) : d ∈ addDir ds d := by
  unfold addDir
  split
  · assumption
  · simp

theorem mem_addDir_of_mem {ds : List String} {a : String} (h : a ∈ ds)
    (d : String) : a ∈ addDir ds d := by
  unfold addDir
  split
  · exact h
  · simp [h]

theorem addDir_eq_of_mem {ds : List String} {d : String} (h : d ∈ ds) :
    addDir ds d = ds := by
  unfold addDir
  simp [h]

theorem mem_addDirs_of_mem {ds : List String} {a : String} (h : a ∈ ds) :
    ∀ new : List String, a ∈ addDirs ds new := by
  intro new
  induction new generalizing ds with
  | nil => exact h
  | cons d rest ih => exact ih (mem_addDir_of_mem h d)

theorem mem_addDirs_of_mem_new {new : List String} {a : String} (h : a ∈ new) :
    ∀ ds : List String, a ∈ addDirs ds new := by
  induction new with
  | nil => cases h
  | cons d rest ih =>
    intro ds
    rcases List.mem_cons.mp h with h' | h'
    · subst h'
      exact mem_addDirs_of_mem (mem_addDir_self ds a) rest
    · exact ih h' (addDir ds d)

theorem addDirs_eq_of_subset : ∀ {new ds : List String},
    (∀ a ∈ new, a ∈ ds) → addDirs ds new = ds := by
  intro new
  induction new with
  | nil => intro ds _; rfl
  | cons d rest ih =>
    intro ds h
    show addDirs (addDir ds d) rest = ds
    rw [addDir_eq_of_mem (h d (by simp))]
    exact ih (fun a ha => h a (by simp [ha]))

theorem self_mem_pathPrefixes {parts : List String} (h : parts ≠ []) :
    parts ∈ pathPrefixes parts := by
  unfold pathPrefixes
  have hn : 0 < parts.length := List.length_pos.mpr h
  refine List.mem_map.mpr ⟨parts.length - 1, List.mem_range.mpr (by omega), ?_⟩
  rw [Nat.sub_add_cancel hn]
  simp

theorem normalize_mem_ancestors {p : String} (h : splitPath p ≠ []) :
    joinParts (splitPath p) ∈ ancestors p :=
  List.mem_map.mpr ⟨splitPath p, self_mem_pathPrefixes h, rfl⟩

/-- With `exist_ok = true`, `makedirs` never raises: it returns the
filesystem extended with every ancestor of the target path. -/
theorem makedirs_true (fs : FS) (p : String) :
    makedirs fs p true =
      Except.ok { fs with dirs := addDirs fs.dirs (ancestors p) } := by
  simp [makedirs]

/-! ### Helper lemmas about file writes -/

theorem getFile_setFile (fs : FS) (p : String) (c : List Nat) :
    (fs.setFile p c).getFile p = some c := by
  simp [FS.setFile, FS.getFile, List.find?]

theorem countAt_setFile (fs : FS) (p : String) (c : List Nat) :
    (fs.setFile p c).countAt p = 1 := by
  unfold FS.setFile FS.countAt
  rw [List.filter_cons]
  have hnil :
      ((fs.files.filter (fun pc => pc.1 ≠ p)).filter (fun pc => pc.1 == p))
        = [] := by
    rw [List.filter_eq_nil_iff]
    intro a ha
    have h2 := (List.mem_filter.mp ha).2
    simp only [decide_not] at h2
    simp only [beq_iff_eq]
    simpa using h2
  simp [hnil]

/-! ### Shape of a run, by outcome of the external calls -/

/-- A fully successful run: the directory tree is extended, the serialized
dataset is written at `save_path`, both messages are printed in order, and
the exit code is 0. -/
theorem runScript_success {D : Type} (serialize : D → List Nat) (env : Env D)
    (fs0 : FS) (d : D) (hm : env.mkdirErr = none)
    (hf : env.fetchResult = Except.ok d) (hw : env.writeErr = none) :
    runScript serialize env fs0 =
      { fs := (FS.mk (addDirs fs0.dirs (ancestors output_path))
                 fs0.files).setFile save_path (serialize d)
        trace := [Ev.mkdirCall output_path, Ev.printLine startingMsg,
                  Ev.fetchCall, Ev.writeCall save_path, Ev.printLine savedMsg]
        exitCode := 0 } := by
  obtain ⟨me, fr, we⟩ := env
  simp only at hm hf hw
  subst hm hf hw
  simp [runScript, makedirs]

/-- A run whose fetch raises (directory creation having succeeded): the
directory tree is still extended, no file is touched, the trace stops at
the fetch call, and the exit code is 1. -/
theorem runScript_fetchErr {D : Type} (serialize : D → List Nat) (env : Env D)
    (fs0 : FS) (e : Err) (hm : env.mkdirErr = none)
    (hf : env.fetchResult = Except.error e) :
    runScript serialize env fs0 =
      { fs := FS.mk (addDirs fs0.dirs (ancestors output_path)) fs0.files
        trace := [Ev.mkdirCall output_path, Ev.printLine startingMsg,
                  Ev.fetchCall]
        exitCode := 1 } := by
  obtain ⟨me, fr, we⟩ := env
  simp only at hm hf
  subst hm hf
  simp [runScript, makedirs]

/-- A run whose `os.makedirs` call raises an OS-level error: nothing else
runs, the filesystem is untouched, and the exit code is 1. -/
theorem runScript_mkdirErr {D : Type} (serialize : D → List Nat) (env : Env D)
    (fs0 : FS) (e : Err) (hm : env.mkdirErr = some e) :
    runScript serialize env fs0 =
      { fs := fs0, trace := [Ev.mkdirCall output_path], exitCode := 1 } := by
  obtain ⟨me, fr, we⟩ := env
  simp only at hm
  subst hm
  simp [runScript]

/-- A run whose write raises: both earlier steps ran, no file entry is
changed, the completion message is never printed, and the exit code is 1. -/
theorem runScript_writeErr {D : Type} (serialize : D → List Nat) (env : Env D)
    (fs0 : FS) (d : D) (e : Err) (hm : env.mkdirErr = none)
    (hf : env.fetchResult = Except.ok d) (hw : env.writeErr = some e) :
    runScript serialize env fs0 =
      { fs := FS.mk (addDirs fs0.dirs (ancestors output_path)) fs0.files
        trace := [Ev.mkdirCall output_path, Ev.printLine startingMsg,
                  Ev.fetchCall, Ev.writeCall save_path]
        exitCode := 1 } := by
  obtain ⟨me, fr, we⟩ := env
  simp only at hm hf hw
  subst hm hf hw
  simp [runScript, makedirs]

/-! ### Closed facts about the four possible traces -/

theorem fetch_not_mem_trace1 : Ev.fetchCall ∉ [Ev.mkdirCall output_path] := by
  decide

theorem saved_not_mem_trace1 :
    Ev.printLine savedMsg ∉ [Ev.mkdirCall output_path] := by
  decide

theorem start_before_fetch_trace3 :
    precedes [Ev.mkdirCall output_path, Ev.printLine startingMsg,
      Ev.fetchCall] (Ev.printLine startingMsg) Ev.fetchCall := by
  decide

theorem saved_not_mem_trace3 :
    Ev.printLine savedMsg ∉ [Ev.mkdirCall output_path,
      Ev.printLine startingMsg, Ev.fetchCall] := by
  decide

theorem start_before_fetch_trace4 :
    precedes [Ev.mkdirCall output_path, Ev.printLine startingMsg,
      Ev.fetchCall, Ev.writeCall save_path]
      (Ev.printLine startingMsg) Ev.fetchCall := by
  decide

theorem saved_not_mem_trace4 :
    Ev.printLine savedMsg ∉ [Ev.mkdirCall output_path,
      Ev.printLine startingMsg, Ev.fetchCall, Ev.writeCall save_path] := by
  decide

theorem start_before_fetch_trace5 :
    precedes [Ev.mkdirCall output_path, Ev.printLine startingMsg,
      Ev.fetchCall, Ev.writeCall save_path, Ev.printLine savedMsg]
      (Ev.printLine startingMsg) Ev.fetchCall := by
  decide

theorem write_before_saved_trace5 :
    precedes [Ev.mkdirCall output_path, Ev.printLine startingMsg,
      Ev.fetchCall, Ev.writeCall save_path, Ev.printLine savedMsg]
      (Ev.writeCall save_path) (Ev.printLine savedMsg) := by
  decide

/-! ### The claims -/

/-- Claim C1: in every execution in which the directory-creation, fetch and
write steps all succeed, the file `data/raw/pbmc3k.h5ad` exists and is
non-empty when the script completes.  (Non-emptiness rests on the external
library's h5ad encoding producing non-empty output, stated here as the
hypothesis on `serialize`.) -/
theorem C1_output_file_exists_nonempty {D : Type} (serialize : D → List Nat)
    (env : Env D) (fs0 : FS) (d : D) (hm : env.mkdirErr = none)
    (hf : env.fetchResult = Except.ok d) (hw : env.writeErr = none)
    (hnz : serialize d ≠ []) :
    ∃ c, (runScript serialize env fs0).fs.getFile save_path = some c ∧
      c ≠ [] := by
  refine ⟨serialize d, ?_, hnz⟩
  rw [runScript_success serialize env fs0 d hm hf hw]
  exact getFile_setFile _ _ _

theorem C1_witness :
    ∃ c, (runScript (fun n : Nat => [n]) ⟨none, Except.ok 5, none⟩
        ⟨[], []⟩).fs.getFile save_path = some c ∧ c ≠ [] :=
  C1_output_file_exists_nonempty (fun n : Nat => [n]) ⟨none, Except.ok 5, none⟩
    ⟨[], []⟩ 5 rfl rfl rfl (by decide)

/-- Claim C2: in every execution in which the fetch raises, the script
writes no file at the destination path (the write step is never reached,
and the file table is exactly the initial one), and the process terminates
with a non-zero exit status. -/
theorem C2_fetch_failure_no_write {D : Type} (serialize : D → List Nat)
    (env : Env D) (fs0 : FS) (e : Err) (hm : env.mkdirErr = none)
    (hf : env.fetchResult = Except.error e) :
    (∀ p, Ev.writeCall p ∉ (runScript serialize env fs0).trace) ∧
    (runScript serialize env fs0).fs.files = fs0.files ∧
    (runScript serialize env fs0).exitCode ≠ 0 := by
  rw [runScript_fetchErr serialize env fs0 e hm hf]
  refine ⟨?_, rfl, Nat.one_ne_zero⟩
  intro p h
  simp at h

theorem C2_witness :
    Ev.writeCall save_path ∉ (runScript (fun n : Nat => [n])
        ⟨none, Except.error (Err.netError "refused"), none⟩ ⟨[], []⟩).trace ∧
    (runScript (fun n : Nat => [n])
        ⟨none, Except.error (Err.netError "refused"), none⟩
        ⟨[], []⟩).fs.files = [] ∧
    (runScript (fun n : Nat => [n])
        ⟨none, Except.error (Err.netError "refused"), none⟩
        ⟨[], []⟩).exitCode ≠ 0 := by
  have h := C2_fetch_failure_no_write (fun n : Nat => [n])
    ⟨none, Except.error (Err.netError "refused"), none⟩ ⟨[], []⟩
    (Err.netError "refused") rfl rfl
  exact ⟨h.1 save_path, h.2.1, h.2.2⟩

/-- Claim C3: in every execution the starting line is printed strictly
before the fetch call begins, and the completion line (which contains the
resolved path) is printed only in runs whose write step returned
successfully, and then strictly after the write call. -/
theorem C3_message_ordering {D : Type} (serialize : D → List Nat)
    (env : Env D) (fs0 : FS) :
    (Ev.fetchCall ∈ (runScript serialize env fs0).trace →
      precedes (runScript serialize env fs0).trace
        (Ev.printLine startingMsg) Ev.fetchCall) ∧
    (Ev.printLine savedMsg ∈ (runScript serialize env fs0).trace →
      env.writeErr = none ∧
      precedes (runScript serialize env fs0).trace
        (Ev.writeCall save_path) (Ev.printLine savedMsg)) := by
  obtain ⟨me, fr, we⟩ := env
  cases me with
  | some e =>
    rw [runScript_mkdirErr serialize ⟨some e, fr, we⟩ fs0 e rfl]
    exact ⟨fun h => absurd h fetch_not_mem_trace1,
           fun h => absurd h saved_not_mem_trace1⟩
  | none =>
    cases fr with
    | error e =>
      rw [runScript_fetchErr serialize ⟨none, Except.error e, we⟩ fs0 e rfl
        rfl]
      exact ⟨fun _ => start_before_fetch_trace3,
             fun h => absurd h saved_not_mem_trace3⟩
    | ok d =>
      cases we with
      | some e =>
        rw [runScript_writeErr serialize ⟨none, Except.ok d, some e⟩ fs0 d e
          rfl rfl rfl]
        exact ⟨fun _ => start_before_fetch_trace4,
               fun h => absurd h saved_not_mem_trace4⟩
      | none =>
        rw [runScript_success serialize ⟨none, Except.ok d, none⟩ fs0 d rfl
          rfl rfl]
        exact ⟨fun _ => start_before_fetch_trace5,
               fun _ => ⟨rfl, write_before_saved_trace5⟩⟩

theorem C3_witness :
    precedes (runScript (fun n : Nat => [n]) ⟨none, Except.ok 5, none⟩
        ⟨[], []⟩).trace (Ev.printLine startingMsg) Ev.fetchCall :=
  (C3_message_ordering (fun n : Nat => [n]) ⟨none, Except.ok 5, none⟩
    ⟨[], []⟩).1 (by decide)

/-- Claim C4: the directory-preparation step with `exist_ok = true` is
idempotent: for every filesystem and every path with at least one
component, it raises no error (even when the directory already exists),
creates every missing ancestor directory, leaves the target directory in
existence, and a second invocation on the result raises no error and
changes nothing. -/
theorem C4_makedirs_idempotent (fs : FS) (p : String)
    (h : splitPath p ≠ []) :
    ∃ fs1, makedirs fs p true = Except.ok fs1 ∧
      dirExists fs1 p ∧
      (∀ a ∈ ancestors p, a ∈ fs1.dirs) ∧
      makedirs fs1 p true = Except.ok fs1 := by
  refine ⟨{ fs with dirs := addDirs fs.dirs (ancestors p) },
    makedirs_true fs p, ?_, ?_, ?_⟩
  · exact mem_addDirs_of_mem_new (normalize_mem_ancestors h) fs.dirs
  · intro a ha
    exact mem_addDirs_of_mem_new ha fs.dirs
  · rw [makedirs_true]
    rw [addDirs_eq_of_subset (fun a ha => mem_addDirs_of_mem_new ha fs.dirs)]

theorem C4_witness :
    ∃ fs1, makedirs ⟨[], []⟩ "data/raw" true = Except.ok fs1 ∧
      dirExists fs1 "data/raw" ∧
      (∀ a ∈ ancestors "data/raw", a ∈ fs1.dirs) ∧
      makedirs fs1 "data/raw" true = Except.ok fs1 :=
  C4_makedirs_idempotent ⟨[], []⟩ "data/raw" (by decide)

/-- Claim C5: after two consecutive successful runs, exactly one file entry
exists at `data/raw/pbmc3k.h5ad`, and its content is the serialization of
the dataset the second run fetched — nothing of the first run's content
survives. -/
theorem C5_overwrite_semantics {D : Type} (serialize : D → List Nat)
    (env1 env2 : Env D) (fs0 : FS) (d1 d2 : D)
    (hm1 : env1.mkdirErr = none) (hf1 : env1.fetchResult = Except.ok d1)
    (hw1 : env1.writeErr = none)
    (hm2 : env2.mkdirErr = none) (hf2 : env2.fetchResult = Except.ok d2)
    (hw2 : env2.writeErr = none) :
    (runScript serialize env2
        (runScript serialize env1 fs0).fs).fs.countAt save_path = 1 ∧
    (runScript serialize env2
        (runScript serialize env1 fs0).fs).fs.getFile save_path =
      some (serialize d2) := by
  rw [runScript_success serialize env1 fs0 d1 hm1 hf1 hw1,
      runScript_success serialize env2 _ d2 hm2 hf2 hw2]
  exact ⟨countAt_setFile _ _ _, getFile_setFile _ _ _⟩

theorem C5_witness :
    (runScript (fun n : Nat => [n]) ⟨none, Except.ok 7, none⟩
        (runScript (fun n : Nat => [n]) ⟨none, Except.ok 5, none⟩
          ⟨[], []⟩).fs).fs.countAt save_path = 1 ∧
    (runScript (fun n : Nat => [n]) ⟨none, Except.ok 7, none⟩
        (runScript (fun n : Nat => [n]) ⟨none, Except.ok 5, none⟩
          ⟨[], []⟩).fs).fs.getFile save_path = some [7] :=
  C5_overwrite_semantics (fun n : Nat => [n]) ⟨none, Except.ok 5, none⟩
    ⟨none, Except.ok 7, none⟩ ⟨[], []⟩ 5 7 rfl rfl rfl rfl rfl rfl

/-- Claim C6: the exit code is 0 exactly when directory creation, fetch and
write all succeed (printing cannot fail in the model, as in the script,
which installs no handler); any error from those operations propagates and
the process exits non-zero. -/
theorem C6_exit_code_iff_success {D : Type} (serialize : D → List Nat)
    (env : Env D) (fs0 : FS) :
    ((runScript serialize env fs0).exitCode = 0 ↔
      env.mkdirErr = none ∧ (∃ d, env.fetchResult = Except.ok d) ∧
        env.writeErr = none) ∧
    (¬ (env.mkdirErr = none ∧ (∃ d, env.fetchResult = Except.ok d) ∧
        env.writeErr = none) →
      (runScript serialize env fs0).exitCode ≠ 0) := by
  have H : (runScript serialize env fs0).exitCode = 0 ↔
      env.mkdirErr = none ∧ (∃ d, env.fetchResult = Except.ok d) ∧
        env.writeErr = none := by
    obtain ⟨me, fr, we⟩ := env
    cases me with
    | some e =>
      rw [runScript_mkdirErr serialize ⟨some e, fr, we⟩ fs0 e rfl]
      simp
    | none =>
      cases fr with
      | error e =>
        rw [runScript_fetchErr serialize ⟨none, Except.error e, we⟩ fs0 e rfl
          rfl]
        simp
      | ok d =>
        cases we with
        | some e =>
          rw [runScript_writeErr serialize ⟨none, Except.ok d, some e⟩ fs0 d e
            rfl rfl rfl]
          simp
        | none =>
          rw [runScript_success serialize ⟨none, Except.ok d, none⟩ fs0 d rfl
            rfl rfl]
          simp
  exact ⟨H, fun hS h0 => hS (H.mp h0)⟩

theorem C6_witness :
    (runScript (fun n : Nat => [n]) ⟨none, Except.ok 5, none⟩
      ⟨[], []⟩).exitCode = 0 :=
  (C6_exit_code_iff_success (fun n : Nat => [n]) ⟨none, Except.ok 5, none⟩
    ⟨[], []⟩).1.mpr ⟨rfl, ⟨5, rfl⟩, rfl⟩

/-- Claim C7: the dataset is passed from fetch to write unchanged: in any
successful run, whatever the serialization function of the external library
is, the bytes stored at `save_path` are that function applied to exactly
the object the fetch returned. -/
theorem C7_dataset_passed_unchanged {D : Type} (serialize : D → List Nat)
    (env : Env D) (fs0 : FS) (d : D) (hm : env.mkdirErr = none)
    (hf : env.fetchResult = Except.ok d) (hw : env.writeErr = none) :
    (runScript serialize env fs0).fs.getFile save_path =
      some (serialize d) := by
  rw [runScript_success serialize env fs0 d hm hf hw]
  exact getFile_setFile _ _ _

theorem C7_witness :
    (runScript (fun n : Nat => [n]) ⟨none, Except.ok 5, none⟩
      ⟨[], []⟩).fs.getFile save_path = some [5] :=
  C7_dataset_passed_unchanged (fun n : Nat => [n]) ⟨none, Except.ok 5, none⟩
    ⟨[], []⟩ 5 rfl rfl rfl

/-- Claim C8: the two status lines have the fixed texts
`"Downloading PBMC 3k dataset..."` and `"Dataset saved to "` followed by
the resolved save path, the POSIX join resolving to
`"data/raw/pbmc3k.h5ad"`; and the script prints nothing else in any
execution. -/
theorem C8_fixed_messages {D : Type} (serialize : D → List Nat)
    (env : Env D) (fs0 : FS) :
    startingMsg = "Downloading PBMC 3k dataset..." ∧
    save_path = "data/raw/pbmc3k.h5ad" ∧
    savedMsg = "Dataset saved to " ++ "data/raw/pbmc3k.h5ad" ∧
    ∀ s, Ev.printLine s ∈ (runScript serialize env fs0).trace →
      s = startingMsg ∨ s = savedMsg := by
  refine ⟨rfl, by decide, by decide, ?_⟩
  obtain ⟨me, fr, we⟩ := env
  cases me with
  | some e =>
    rw [runScript_mkdirErr serialize ⟨some e, fr, we⟩ fs0 e rfl]
    intro s h
    simp at h
  | none =>
    cases fr with
    | error e =>
      rw [runScript_fetchErr serialize ⟨none, Except.error e, we⟩ fs0 e rfl
        rfl]
      intro s h
      simp at h
      exact Or.inl h
    | ok d =>
      cases we with
      | some e =>
        rw [runScript_writeErr serialize ⟨none, Except.ok d, some e⟩ fs0 d e
          rfl rfl rfl]
        intro s h
        simp at h
        exact Or.inl h
      | none =>
        rw [runScript_success serialize ⟨none, Except.ok d, none⟩ fs0 d rfl
          rfl rfl]
        intro s h
        simp at h
        exact h

theorem C8_witness :
    startingMsg = "Downloading PBMC 3k dataset..." ∧
    save_path = "data/raw/pbmc3k.h5ad" :=
  ⟨(C8_fixed_messages (fun n : Nat => [n]) ⟨none, Except.ok 5, none⟩
      ⟨[], []⟩).1,
   (C8_fixed_messages (fun n : Nat => [n]) ⟨none, Except.ok 5, none⟩
      ⟨[], []⟩).2.1⟩

/-- Claim C9: when directory creation succeeds and the fetch then raises,
the directory `data/raw` still exists at process exit, the file table is
untouched, and the exit code is non-zero — the created directory is the
failed run's only persistent filesystem effect under the script's
control. -/
theorem C9_dir_persists_on_fetch_failure {D : Type} (serialize : D → List Nat)
    (env : Env D) (fs0 : FS) (e : Err) (hm : env.mkdirErr = none)
    (hf : env.fetchResult = Except.error e) :
    dirExists (runScript serialize env fs0).fs output_path ∧
    (runScript serialize env fs0).fs.files = fs0.files ∧
    (runScript serialize env fs0).exitCode ≠ 0 := by
  rw [runScript_fetchErr serialize env fs0 e hm hf]
  refine ⟨?_, rfl, Nat.one_ne_zero⟩
  exact mem_addDirs_of_mem_new (normalize_mem_ancestors (by decide)) fs0.dirs

theorem C9_witness :
    dirExists (runScript (fun n : Nat => [n])
      ⟨none, Except.error (Err.netError "down"), none⟩ ⟨[], []⟩).fs
      output_path :=
  (C9_dir_persists_on_fetch_failure (fun n : Nat => [n])
    ⟨none, Except.error (Err.netError "down"), none⟩ ⟨[], []⟩
    (Err.netError "down") rfl rfl).1

/-- Claim C10: the script is deterministic as a function of the fetch
result: two successful runs whose fetches return the same dataset write the
same content to the same path `save_path` and print the same two lines to
standard output, whatever initial filesystems they start from. -/
theorem C10_deterministic_run {D : Type} (serialize : D → List Nat)
    (env1 env2 : Env D) (fsA fsB : FS) (d : D)
    (hm1 : env1.mkdirErr = none) (hf1 : env1.fetchResult = Except.ok d)
    (hw1 : env1.writeErr = none)
    (hm2 : env2.mkdirErr = none) (hf2 : env2.fetchResult = Except.ok d)
    (hw2 : env2.writeErr = none) :
    (runScript serialize env1 fsA).fs.getFile save_path =
      (runScript serialize env2 fsB).fs.getFile save_path ∧
    (runScript serialize env1 fsA).fs.getFile save_path =
      some (serialize d) ∧
    stdoutOf (runScript serialize env1 fsA) =
      stdoutOf (runScript serialize env2 fsB) ∧
    stdoutOf (runScript serialize env1 fsA) = [startingMsg, savedMsg] := by
  rw [runScript_success serialize env1 fsA d hm1 hf1 hw1,
      runScript_success serialize env2 fsB d hm2 hf2 hw2]
  refine ⟨?_, getFile_setFile _ _ _, rfl, rfl⟩
  rw [getFile_setFile, getFile_setFile]

theorem C10_witness :
    stdoutOf (runScript (fun n : Nat => [n]) ⟨none, Except.ok 5, none⟩
      ⟨[], []⟩) = [startingMsg, savedMsg] :=
  (C10_deterministic_run (fun n : Nat => [n]) ⟨none, Except.ok 5, none⟩
    ⟨none, Except.ok 5, none⟩ ⟨[], []⟩ ⟨["data"], [("x", [1])]⟩ 5
    rfl rfl rfl rfl rfl rfl).2.2.2

end PBMC3K
